import Mathlib

/-!
Verification of the Jellyfin Media Downloader core: the download
admission/queue scheduler (`DownloadManager` in `downloader.py`), the
classification-and-placement pipeline (`DownloadTask.process_media`,
`MediaProcessor.search_tmdb` in `media_processor.py`), the sanitizers
(`sanitize_path_component`, the rename-path regex substitution), the
timeout path of `DownloadTask.start_download`, and the TTL session store
(`SessionManager` in `src/services/session_manager.py`).

Paths are modelled as `String`s, the filesystem as an association list
from path to an abstract content id, wall-clock scores and durations as
rationals, and timestamps as naturals.
-/

namespace JellyfinDL

/-! ### Path helpers (model of Python `pathlib.PurePath` accessors) -/

/-- The final path component, i.e. Python `Path(p).name`: everything after
the last slash (the whole string when there is no slash). -/
def pathName (p : String) : String :=
  ⟨((p.data.reverse.takeWhile (fun c => c ≠ '/'))).reverse⟩

/-- Everything up to and including the last slash; `""` when there is no
slash.  Used to model `Path(p).with_name(n)` as `pathDirSlash p ++ n`. -/
def pathDirSlash (p : String) : String :=
  ⟨((p.data.reverse.dropWhile (fun c => c ≠ '/'))).reverse⟩

/-- Model of `Path(p).with_name(n)`. -/
def pathWithName (p n : String) : String := pathDirSlash p ++ n

/-- Length of the Python `Path(name).suffix` of a name (no slashes):
the extension starting at the last dot, empty when the last dot is the
first character or the last character (CPython rule `0 < i < len-1`). -/
def suffixLen (cs : List Char) : Nat :=
  let j := cs.reverse.indexOf '.'
  if j < cs.length then
    let i := cs.length - 1 - j
    if 0 < i ∧ i + 1 < cs.length then cs.length - i else 0
  else 0

theorem suffixLen_le (cs : List Char) : suffixLen cs ≤ cs.length := by
  unfold suffixLen
  dsimp only
  split
  · split
    · exact Nat.sub_le _ _
    · exact Nat.zero_le _
  · exact Nat.zero_le _

/-- Python `Path(name).suffix` for a final component. -/
def pySuffix (name : String) : String :=
  ⟨name.data.drop (name.data.length - suffixLen name.data)⟩

/-- Python `Path(name).stem` for a final component. -/
def pyStem (name : String) : String :=
  ⟨name.data.take (name.data.length - suffixLen name.data)⟩

theorem pyStem_data_append_pySuffix_data (name : String) :
    (pyStem name).data ++ (pySuffix name).data = name.data := by
  simp [pyStem, pySuffix, List.take_append_drop]

theorem pyStem_length_add_pySuffix_length (name : String) :
    (pyStem name).data.length + (pySuffix name).data.length = name.data.length := by
  have h := pyStem_data_append_pySuffix_data name
  calc (pyStem name).data.length + (pySuffix name).data.length
      = ((pyStem name).data ++ (pySuffix name).data).length := (List.length_append _ _).symm
    _ = name.data.length := by rw [h]

/-! ### Filesystem model

An association list from path to an abstract content id; `move` models
both `os.rename` and `shutil.move` onto an existing regular file: the
destination entry, if any, is replaced (POSIX overwrite semantics). -/

abbrev FS : Type := List (String × Nat)

def FS.lookup (fs : FS) (p : String) : Option Nat :=
  match fs with
  | [] => none
  | e :: rest => if e.1 = p then some e.2 else FS.lookup rest p

def FS.pathExists (fs : FS) (p : String) : Bool :=
  (FS.lookup fs p).isSome

def FS.remove (fs : FS) (p : String) : FS :=
  match fs with
  | [] => []
  | e :: rest => if e.1 = p then FS.remove rest p else e :: FS.remove rest p

def FS.write (fs : FS) (p : String) (c : Nat) : FS :=
  (p, c) :: FS.remove fs p

def FS.move (fs : FS) (src dst : String) : FS :=
  match FS.lookup fs src with
  | none => fs
  | some c => FS.write (FS.remove fs src) dst c

theorem FS.lookup_remove_ne (fs : FS) (p q : String) (h : p ≠ q) :
    FS.lookup (FS.remove fs q) p = FS.lookup fs p := by
  induction fs with
  | nil => rfl
  | cons e rest ih =>
    by_cases he : e.1 = q
    · have hne : ¬ e.1 = p := by
        intro hp
        exact h (hp ▸ he)
      rw [FS.remove, if_pos he, ih, FS.lookup, if_neg hne]
    · rw [FS.remove, if_neg he, FS.lookup, FS.lookup]
      by_cases hp : e.1 = p
      · rw [if_pos hp, if_pos hp]
      · rw [if_neg hp, if_neg hp, ih]

theorem FS.lookup_write_ne (fs : FS) (p q : String) (c : Nat) (h : p ≠ q) :
    FS.lookup (FS.write fs q c) p = FS.lookup fs p := by
  have hne : ¬ q = p := fun hh => h hh.symm
  simp [FS.write, FS.lookup, hne]
  exact FS.lookup_remove_ne fs p q h

theorem FS.lookup_move_ne (fs : FS) (src dst p : String)
    (hs : p ≠ src) (hd : p ≠ dst) :
    FS.lookup (FS.move fs src dst) p = FS.lookup fs p := by
  unfold FS.move
  cases hl : FS.lookup fs src with
  | none => rfl
  | some c =>
    rw [FS.lookup_write_ne _ _ _ _ hd]
    exact FS.lookup_remove_ne fs p src hs

/-! ### Admission scheduler (`DownloadManager` in `downloader.py`)

`active` models the keys of `self.active_downloads` (a dict keyed by
message id), `queued` the `self.queued_downloads` list, `maxConcurrent`
the concurrency cap, `accepting` the `accepting_new_downloads` flag.
Bookkeeping fields record the execution context: `pending` holds ids of
tasks whose `_process_download` coroutine has been spawned but whose
`finally` block has not yet run (each such coroutine runs its `finally`
exactly once); `submitted` all ids ever submitted; `cancelledIds` the
ids on which `task.cancel()` was awaited. -/

structure Sched where
  active : List Nat
  queued : List Nat
  maxConcurrent : Nat
  accepting : Bool
  pending : List Nat
  submitted : List Nat
  cancelledIds : List Nat
  deriving DecidableEq, Repr

def Sched.init (cap : Nat) : Sched :=
  { active := [], queued := [], maxConcurrent := cap, accepting := true
    pending := [], submitted := [], cancelledIds := [] }

/-- The shared promotion block (`queued_downloads.pop(0)` followed by
insertion into `active_downloads` and `create_task(_process_download)`),
as it appears in both the `finally` of `_process_download` and in
`cancel_download`.  Note it does not re-check the concurrency cap. -/
def Sched.promote (s : Sched) : Sched :=
  match s.queued with
  | [] => s
  | h :: t =>
    { s with active := s.active ++ [h], queued := t, pending := s.pending ++ [h] }

/-- Model of `DownloadManager.add_download`.  Returns the new state and the
Python return value: `-1` when not accepting, `0` when admitted
immediately, else the 1-based queue position. -/
def add_download (s : Sched) (id : Nat) : Sched × Int :=
  if s.accepting = false then (s, -1)
  else if s.active.length < s.maxConcurrent then
    ({ s with active := s.active ++ [id], pending := s.pending ++ [id],
              submitted := s.submitted ++ [id] }, 0)
  else
    ({ s with queued := s.queued ++ [id], submitted := s.submitted ++ [id] },
     (s.queued.length + 1 : Int))

/-- Model of `DownloadManager.cancel_download`.  An active id is popped from the
active set, its task is cancelled, and the head of the queue (if any) is
promoted into the freed slot; a queued id is spliced out of the queue;
otherwise `false` is returned. -/
def cancel_download (s : Sched) (id : Nat) : Sched × Bool :=
  if id ∈ s.active then
    (Sched.promote { s with active := s.active.erase id,
                            cancelledIds := s.cancelledIds ++ [id] }, true)
  else if id ∈ s.queued then
    ({ s with queued := s.queued.erase id,
              cancelledIds := s.cancelledIds ++ [id] }, true)
  else (s, false)

/-- The `finally` block of `DownloadManager._process_download`: the task
is removed from the active set when still there, and then the head of the
queue — if any — is promoted, unconditionally. -/
def finishTask (s : Sched) (id : Nat) : Sched :=
  let s1 := if id ∈ s.active then { s with active := s.active.erase id } else s
  Sched.promote { s1 with pending := s1.pending.erase id }

/-- Scheduler events: a fresh submission, a user cancellation, and the
termination of the `_process_download` coroutine of an admitted task. -/
inductive SchedEv where
  | submit (id : Nat)
  | cancelEv (id : Nat)
  | finish (id : Nat)
  deriving DecidableEq, Repr

def schedStep (s : Sched) (e : SchedEv) : Sched :=
  match e with
  | .submit id => (add_download s id).1
  | .cancelEv id => (cancel_download s id).1
  | .finish id => finishTask s id

def schedRun (cap : Nat) (es : List SchedEv) : Sched :=
  es.foldl schedStep (Sched.init cap)

/-- An event sequence is realizable from state `s` when every submitted
id is fresh (transfer ids map 1:1 to chat messages) and a `finish` fires
only for a task whose spawned coroutine has not yet run its `finally`. -/
def validFrom (s : Sched) : List SchedEv → Bool
  | [] => true
  | e :: es =>
    (match e with
     | .submit id => decide (id ∉ s.submitted)
     | .cancelEv _ => true
     | .finish id => decide (id ∈ s.pending)) && validFrom (schedStep s e) es

/-! ### Sanitizers -/

/-- The character class of the rename-path substitution
regex substitution in `process_media` (rule: backslash, slash,
colon, double quote, asterisk, question mark, angle brackets, pipe). -/
def invalidRenameChars : List Char := ['\\', '/', ':', '"', '*', '?', '<', '>', '|']

/-- The rename-path sanitization itself: the regex replaces every run of
characters from the class with the empty string, i.e. it removes every
occurrence of those characters. -/
def reSubInvalid (s : String) : String :=
  ⟨s.data.filter (fun c => !(c ∈ invalidRenameChars))⟩

/-- Python strip of dots and spaces: remove them from both ends. -/
def stripDotSpace (cs : List Char) : List Char :=
  (((cs.dropWhile (fun c => c == '.' || c == ' ')).reverse.dropWhile
      (fun c => c == '.' || c == ' '))).reverse

/-- Model of `sanitize_path_component` from `downloader.py`: slash to underscore,
colon to " -", the Windows-invalid characters and backslash to
underscore, strip leading/trailing dots and spaces, and fall back to
`"unnamed"` when the result is empty. -/
def sanitize_path_component (name : String) : String :=
  let s1 := name.data.map (fun c => if c = '/' then '_' else c)
  let s2 := s1.flatMap (fun c => if c = ':' then [' ', '-'] else [c])
  let s3 := s2.map (fun c => if c ∈ ['<', '>', '"', '|', '?', '*'] then '_' else c)
  let s4 := s3.map (fun c => if c = '\\' then '_' else c)
  let s5 := stripDotSpace s4
  if s5 = [] then "unnamed" else ⟨s5⟩

/-! ### Metadata classifier (`MediaProcessor` in `media_processor.py`) -/

/-- The dict returned by `search_tmdb`: either `{}` (all fields absent)
or a full record.  `year = none` on a movie record models a present key
holding Python `None`. -/
structure MediaResult where
  rtype : Option String
  title : Option String
  year : Option String
  season : Option Nat
  episode : Option Nat
  isAnime : Option Bool
  tmdbId : Option Nat
  folderStructure : Option String
  deriving DecidableEq, Repr

def MediaResult.empty : MediaResult :=
  ⟨none, none, none, none, none, none, none, none⟩

/-- Python truthiness of the result dict: `search_tmdb` returns either
`{}` or a dict always carrying the `type` key. -/
def MediaResult.isEmpty (r : MediaResult) : Bool := r.rtype.isNone

/-- Evaluation of the dict read with default unknown, the category read everywhere
downstream of the classifier. -/
def MediaResult.category (r : MediaResult) : String := r.rtype.getD "unknown"

/-- The hints GuessIt extracts from a filename (external library,
modelled as an input). -/
structure GuessitInfo where
  title : Option String
  gtype : Option String
  season : Option Nat
  episode : Option Nat
  year : Option Nat
  deriving DecidableEq, Repr

structure TvShow where
  name : String
  id : Nat
  deriving DecidableEq, Repr

structure MovieItem where
  title : String
  releaseDate : Option String
  id : Nat
  deriving DecidableEq, Repr

/-- The metadata provider (TMDb), treated as an oracle: title search for
TV and movies, and the keyword list per (id, media type) used by
`check_anime_tag`. -/
structure Provider where
  tvSearch : String → List TvShow
  movieSearch : String → List MovieItem
  keywords : Nat → String → List String

/-- Model of `MediaProcessor.search_tmdb`.  A missing or empty GuessIt title
raises `ValueError`; an empty provider result list yields `{}`; episode
hints select the TV query (defaulting season/episode to 1), anything
else the movie query.  The per-episode details fetch in the source is
dead code (its result is unused) and is omitted.  The `is_anime` field
is hard-coded `False` in both branches (source comment: keyword lookup
not available in tmdbv3api). -/
def search_tmdb (filename : String) (info : GuessitInfo) (p : Provider) :
    Except String MediaResult :=
  match info.title with
  | none => .error ("Could not extract title from " ++ filename)
  | some t =>
    if t = "" then .error ("Could not extract title from " ++ filename)
    else if info.gtype = some "episode" then
      match p.tvSearch t with
      | [] => .ok MediaResult.empty
      | sh :: _ =>
        .ok { rtype := some "tv", title := some sh.name, year := none,
              season := some (info.season.getD 1),
              episode := some (info.episode.getD 1),
              isAnime := some false, tmdbId := some sh.id,
              folderStructure := none }
    else
      match p.movieSearch t with
      | [] => .ok MediaResult.empty
      | m :: _ =>
        .ok { rtype := some "movie", title := some m.title,
              year := (match m.releaseDate with
                       | some rd => if rd = "" then none else some (rd.take 4)
                       | none => none),
              season := none, episode := none,
              isAnime := some false, tmdbId := some m.id,
              folderStructure := none }

/-- Python `str.lower()`, modelled character-wise. -/
def strToLower (s : String) : String := ⟨s.data.map Char.toLower⟩

/-- Model of `MediaProcessor.check_anime_tag`: whether the provider keywords for
the item contain (case-insensitively) the keyword `anime`. -/
def check_anime_tag (p : Provider) (tmdbId : Nat) (mediaType : String) : Bool :=
  (p.keywords tmdbId mediaType).any (fun k => strToLower k == "anime")

/-! ### Classification-and-placement pipeline (`DownloadTask.process_media`) -/

/-- The configured library directories. -/
structure Dirs where
  moviesDir : String
  tvDir : String
  animeDir : String
  otherDir : String
  deriving DecidableEq, Repr

/-- Python `"%02d" % n` / `f"{n:02d}"` zero-padding. -/
def pad2 (n : Nat) : String :=
  if n < 10 then "0" ++ toString n else toString n

/-- Rendering of an optional string in an f-string: Python `None`
renders as `"None"`. -/
def pyOptStr (o : Option String) : String :=
  match o with
  | some s => s
  | none => "None"

/-- Python truthiness of an optional string (`None` and `""` falsy). -/
def truthyOptStr (o : Option String) : Bool :=
  match o with
  | some s => !(s == "")
  | none => false

/-- Model of `f"{score:.2f}"`: fixed two-decimal rendering (rounding to
nearest, half away from zero — Python even-rounding differs only at
exact ties). -/
def fmtScore (q : ℚ) : String :=
  let n : Int := (q * 100 + 1/2).floor
  toString (n / 100) ++ "." ++ pad2 ((n % 100).toNat)

/-- Step 2 of `process_media`: the target directory decision tree
(anime under the anime root, TV under `TV/<Show>/Season NN` or a
provided folder structure, movies under `Movies/<Title> (Year)`, and
the catch-all directory otherwise). -/
def targetDirFor (d : Dirs) (r : MediaResult) : String :=
  if r.isEmpty then d.otherDir
  else if r.isAnime = some true then
    (if r.rtype = some "tv" then
      d.animeDir ++ "/" ++ sanitize_path_component (r.title.getD "") ++
        "/Season " ++ pad2 (r.season.getD 0)
    else if r.rtype = some "movie" then
      (let title := sanitize_path_component (r.title.getD "")
       let folder := if truthyOptStr r.year then
           title ++ " (" ++ pyOptStr r.year ++ ")" else title
       d.animeDir ++ "/" ++ folder)
    else d.animeDir ++ "/" ++ sanitize_path_component (r.title.getD ""))
  else if r.rtype = some "tv" then
    (if truthyOptStr r.folderStructure then
      d.tvDir ++ "/" ++ pyOptStr r.folderStructure
    else
      d.tvDir ++ "/" ++ sanitize_path_component (r.title.getD "") ++
        "/Season " ++ pad2 (r.season.getD 0))
  else if r.rtype = some "movie" then
    (let title := sanitize_path_component (r.title.getD "")
     let folder := if truthyOptStr r.year then
         title ++ " (" ++ pyOptStr r.year ++ ")" else title
     d.moviesDir ++ "/" ++ folder)
  else d.otherDir

/-- The high-confidence Jellyfin-friendly base name: anime episode
`Title - Episode N`, TV `Title - SNNENN`, movie `Title (Year)`, else the
stem of the filename of the task. -/
def renameBase (r : MediaResult) (selfFilename : String) : String :=
  if r.isAnime = some true ∧ r.rtype = some "tv" then
    (r.title.getD "") ++ " - Episode " ++
      (match r.episode with | some e => toString e | none => "")
  else if r.rtype = some "tv" then
    (r.title.getD "") ++ " - S" ++ pad2 (r.season.getD 0) ++
      "E" ++ pad2 (r.episode.getD 0)
  else if r.rtype = some "movie" then
    (r.title.getD "") ++ " (" ++ pyOptStr r.year ++ ")"
  else pyStem selfFilename

/-- Appending the detected resolution tag:
reading the GuessIt screen size of the original name, lowercased,
followed
by `if resolution: base = f"{base} [{resolution}]"`. -/
def withResTag (base : String) (screenSize : Option String) : String :=
  let resol := strToLower (screenSize.getD "")
  if resol = "" then base else base ++ " [" ++ resol ++ "]"

structure MoveOut where
  fs : FS
  dest : String
  deriving DecidableEq, Repr

/-- Step 3 of `process_media`: the final library move.  The destination
is `target_dir / Path(download_path).name`; when it already exists the
name gets a `_<unix-time>` stamp between stem and extension; then the
file is moved. -/
def finalMove (fs : FS) (curPath targetDir : String) (now : Nat) : MoveOut :=
  let finalName := pathName curPath
  let dest0 := targetDir ++ "/" ++ finalName
  let dest := if FS.pathExists fs dest0 then
      targetDir ++ "/" ++ pyStem finalName ++ "_" ++ toString now ++ pySuffix finalName
    else dest0
  ⟨FS.move fs curPath dest, dest⟩

/-- Observable outcome of one `process_media` run. -/
structure ProcOutcome where
  fs : FS
  renamed : Bool
  movedName : String
  finalPath : Option String
  fellBack : Bool
  audit : List String
  recorded : Bool
  deriving DecidableEq, Repr

/-- Model of `DownloadTask.process_media`.  Inputs: the confidence thresholds,
the directories, the on-disk download path, the `self.filename` of the task,
the GuessIt-parsed title, the similarity score of parsed vs provider
title, the `search_tmdb` result, the GuessIt `screen_size` of the
current file name, the current unix time, the cancellation flag of the task
and the filesystem.  Below the low threshold the file moves unmodified
to the catch-all directory and one audit line is appended; at or above
the high threshold the file is renamed in place to the sanitized
library-style name before the final move. -/
def process_media (low high : ℚ) (d : Dirs)
    (downloadPath selfFilename parsed : String) (score : ℚ)
    (r : MediaResult) (screenSize : Option String) (now : Nat)
    (cancelled : Bool) (fs : FS) : ProcOutcome :=
  if cancelled then
    { fs := fs, renamed := false, movedName := "", finalPath := none,
      fellBack := false, audit := [], recorded := false }
  else
    let tmdbTitle := r.title.getD ""
    if score < low then
      let dest := d.otherDir ++ "/" ++ pathName downloadPath
      { fs := FS.move fs downloadPath dest, renamed := false,
        movedName := pathName downloadPath, finalPath := some dest,
        fellBack := true,
        audit := [selfFilename ++ "," ++ parsed ++ "," ++ tmdbTitle ++ "," ++
                  fmtScore score],
        recorded := false }
    else
      let targetDir := targetDirFor d r
      let step2 :=
        if high ≤ score then
          let ext := pySuffix (pathName downloadPath)
          let base := withResTag (renameBase r selfFilename) screenSize
          let newName := reSubInvalid base ++ ext
          let newPath := pathWithName downloadPath newName
          (FS.move fs downloadPath newPath, newPath, true)
        else (fs, downloadPath, false)
      let mv := finalMove step2.1 step2.2.1 targetDir now
      { fs := mv.fs, renamed := step2.2.2, movedName := pathName step2.2.1,
        finalPath := some mv.dest, fellBack := false, audit := [],
        recorded := true }

/-! ### Download with deadline (`DownloadTask.start_download` / `cancel`) -/

/-- Behaviour of the underlying transport download for one task: it
either completes after `elapsed` seconds of wall-clock time or raises. -/
inductive DlOutcome where
  | completes (elapsed : ℚ)
  | fails
  deriving DecidableEq, Repr

/-- Observable post-state of one `start_download` run: the
`cancelled` flag, whether the downloaded (possibly incomplete) file is
on disk at `download_path`, which stats metric was recorded, and the
boolean return value. -/
structure DlResult where
  cancelled : Bool
  fileOnDisk : Bool
  failRecorded : Bool
  successRecorded : Bool
  returned : Bool
  deriving DecidableEq, Repr

/-- Model of `DownloadTask.start_download`.  The download runs inside
`async_timeout.timeout(max_duration)`: when its wall-clock duration
exceeds `maxDuration` a `TimeoutError` fires, `self.cancel()` runs
(setting the flag and unlinking the file at `download_path` if present)
and a failed-download metric is recorded, returning `False`.  On normal
completion a success metric is recorded and `True` is returned; on any
other transport exception a failed metric is recorded, the file is left
as the transport left it, and `False` is returned. -/
def start_download (maxDuration : ℚ) (outcome : DlOutcome)
    (fileWritten : Bool) : DlResult :=
  match outcome with
  | .completes elapsed =>
    if maxDuration < elapsed then
      { cancelled := true, fileOnDisk := false, failRecorded := true,
        successRecorded := false, returned := false }
    else
      { cancelled := false, fileOnDisk := true, failRecorded := false,
        successRecorded := true, returned := true }
  | .fails =>
    { cancelled := false, fileOnDisk := fileWritten, failRecorded := true,
      successRecorded := false, returned := false }

/-- Observable outcome of the task body of
`DownloadManager._process_download`: `await task.start_download()`
followed by `await task.process_media()` (which returns immediately when
the cancellation flag is set).  No retry surrounds either call. -/
structure TaskRun where
  dl : DlResult
  proc : ProcOutcome
  deriving DecidableEq, Repr

def runTask (maxDuration : ℚ) (outcome : DlOutcome) (fileWritten : Bool)
    (low high : ℚ) (d : Dirs) (downloadPath selfFilename parsed : String)
    (score : ℚ) (r : MediaResult) (screenSize : Option String) (now : Nat)
    (fs : FS) : TaskRun :=
  let st := start_download maxDuration outcome fileWritten
  { dl := st,
    proc := process_media low high d downloadPath selfFilename parsed score r
              screenSize now st.cancelled fs }

/-! ### TTL session store (`SessionManager` in `src/services/session_manager.py`)

Time is modelled as a natural number in the unit of the TTL (minutes in the
source); `datetime.now()` is passed explicitly to each operation. -/

structure UserSession where
  userId : Nat
  state : String
  data : List (String × String)
  createdAt : Nat
  expiresAt : Nat
  deriving DecidableEq, Repr

/-- Model of `UserSession.is_expired`: current time strictly past expiry. -/
def UserSession.isExpired (now : Nat) (s : UserSession) : Bool :=
  decide (s.expiresAt < now)

structure SessionManager where
  sessions : List (Nat × UserSession)
  ttl : Nat
  deriving DecidableEq, Repr

def sessLookup (l : List (Nat × UserSession)) (uid : Nat) : Option UserSession :=
  match l with
  | [] => none
  | e :: rest => if e.1 = uid then some e.2 else sessLookup rest uid

def SessionManager.lookup (m : SessionManager) (uid : Nat) : Option UserSession :=
  sessLookup m.sessions uid

/-- Dict assignment `self._sessions[user_id] = session` (replace or
insert), also used to store back a mutated session object. -/
def setEntry (l : List (Nat × UserSession)) (uid : Nat) (s : UserSession) :
    List (Nat × UserSession) :=
  match l with
  | [] => [(uid, s)]
  | e :: rest => if e.1 = uid then (uid, s) :: rest else e :: setEntry rest uid s

/-- Model of `SessionManager.clear`: drop the entry for the user if present. -/
def SessionManager.clear (m : SessionManager) (uid : Nat) : SessionManager :=
  { m with sessions := m.sessions.filter (fun e => !(e.1 == uid)) }

/-- Model of `SessionManager.get`: lazy expiry — an expired session is evicted
and reported absent. -/
def SessionManager.get (m : SessionManager) (now uid : Nat) :
    SessionManager × Option UserSession :=
  match m.lookup uid with
  | none => (m, none)
  | some s => if UserSession.isExpired now s then (m.clear uid, none)
              else (m, some s)

/-- Model of `SessionManager.create`: a fresh session expiring at `now + ttl`,
replacing any existing one. -/
def SessionManager.create (m : SessionManager) (now uid : Nat)
    (st : String) (data : List (String × String)) :
    SessionManager × UserSession :=
  let s : UserSession :=
    { userId := uid, state := st, data := data, createdAt := now,
      expiresAt := now + m.ttl }
  ({ m with sessions := setEntry m.sessions uid s }, s)

/-- Python `dict.update(kwargs)` on the data of the session. -/
def updateData (old kvs : List (String × String)) : List (String × String) :=
  (old.filter (fun e => !(kvs.any (fun k => k.1 == e.1)))) ++ kvs

/-- Model of `SessionManager.update`: a `get` (with its lazy eviction), then merge
the data and refresh the expiry to `now + ttl`; `none` when the session
is absent or already expired. -/
def SessionManager.update (m : SessionManager) (now uid : Nat)
    (kvs : List (String × String)) : SessionManager × Option UserSession :=
  let g := m.get now uid
  match g.2 with
  | none => (g.1, none)
  | some s =>
    let s' := { s with data := updateData s.data kvs,
                       expiresAt := now + g.1.ttl }
    ({ g.1 with sessions := setEntry g.1.sessions uid s' }, some s')

/-! ## Theorems for the claims -/

/-- A realizable event sequence with concurrency cap 3: five fresh
submissions, a user cancellation of active task 1 (which promotes task 4
into the freed slot), then the coroutine of the cancelled task finishing its
`finally` block (which promotes task 5 on top of a full active set). -/
def overCapTrace : List SchedEv :=
  [.submit 1, .submit 2, .submit 3, .submit 4, .submit 5,
   .cancelEv 1, .finish 1]

/-- C1: Scheduler state invariant.  REFUTED on the code: the `finally`
block of `_process_download` promotes the head of the queue even when
the finishing task was already evicted from the active set by
`cancel_download` (which itself already promoted one), so after the
realizable trace `overCapTrace` the active set holds 4 tasks although
the concurrency cap is 3. -/
theorem c1_cap_exceeded :
    validFrom (Sched.init 3) overCapTrace = true ∧
    (schedRun 3 overCapTrace).maxConcurrent = 3 ∧
    (schedRun 3 overCapTrace).active = [2, 3, 4, 5] ∧
    (schedRun 3 overCapTrace).active.length = 4 := by
  decide

/-- C3: `cancel_download` semantics.  For a well-formed scheduler state
(no duplicate ids, active and queue disjoint): cancelling an active id
stops it, evicts it from the active set and, when the queue is
non-empty, promotes exactly the head into the freed slot (active size
unchanged); cancelling a queued-only id splices it out of the queue and
leaves the active set untouched; both return `true`. -/
theorem c3_cancel_semantics (s : Sched) (id : Nat)
    (hA : s.active.Nodup) (hQ : s.queued.Nodup)
    (hD : ∀ x ∈ s.active, x ∉ s.queued) :
    (id ∈ s.active →
      (cancel_download s id).2 = true ∧
      id ∉ (cancel_download s id).1.active ∧
      id ∈ (cancel_download s id).1.cancelledIds ∧
      (∀ h t, s.queued = h :: t →
        (cancel_download s id).1.active = s.active.erase id ++ [h] ∧
        (cancel_download s id).1.queued = t ∧
        (cancel_download s id).1.active.length = s.active.length) ∧
      (s.queued = [] →
        (cancel_download s id).1.active = s.active.erase id)) ∧
    (id ∉ s.active → id ∈ s.queued →
      (cancel_download s id).2 = true ∧
      (cancel_download s id).1.active = s.active ∧
      (cancel_download s id).1.queued = s.queued.erase id ∧
      id ∈ (cancel_download s id).1.cancelledIds ∧
      id ∉ (cancel_download s id).1.queued) := by
  constructor
  · intro hid
    have hner : id ∉ s.active.erase id := hA.not_mem_erase
    refine ⟨?_, ?_, ?_, ?_, ?_⟩
    · simp [cancel_download, hid]
    · cases hq : s.queued with
      | nil => simp [cancel_download, Sched.promote, hid, hq, hner]
      | cons h t =>
        have hht : h ∈ s.queued := by rw [hq]; exact List.mem_cons_self h t
        have hidh : id ≠ h := fun he => (hD id hid) (he ▸ hht)
        simp only [cancel_download, if_pos hid, Sched.promote, hq]
        simp only [List.mem_append, List.mem_singleton]
        rintro (hc | hc)
        · exact hner hc
        · exact hidh hc
    · cases hq : s.queued with
      | nil => simp [cancel_download, Sched.promote, hid, hq]
      | cons h t => simp [cancel_download, Sched.promote, hid, hq]
    · intro h t hq
      have hlen : (s.active.erase id).length = s.active.length - 1 :=
        List.length_erase_of_mem hid
      have hpos : 0 < s.active.length := List.length_pos_of_mem hid
      refine ⟨?_, ?_, ?_⟩
      · simp [cancel_download, Sched.promote, hid, hq]
      · simp [cancel_download, Sched.promote, hid, hq]
      · simp only [cancel_download, if_pos hid, Sched.promote, hq]
        simp only [List.length_append, List.length_singleton, hlen]
        omega
    · intro hq
      simp [cancel_download, Sched.promote, hid, hq]
  · intro hnid hqid
    have hne : id ∉ s.queued.erase id := hQ.not_mem_erase
    refine ⟨?_, ?_, ?_, ?_, ?_⟩ <;>
      simp [cancel_download, hnid, hqid, hne]

/-- Concrete scheduler state for the C3 witness. -/
def schedW : Sched :=
  { active := [1, 2], queued := [3], maxConcurrent := 2, accepting := true,
    pending := [1, 2], submitted := [1, 2, 3], cancelledIds := [] }

theorem c3_cancel_semantics_witness :
    ((cancel_download schedW 1).2 = true ∧
     1 ∉ (cancel_download schedW 1).1.active ∧
     (cancel_download schedW 1).1.active = schedW.active.erase 1 ++ [3] ∧
     (cancel_download schedW 1).1.queued = [] ∧
     (cancel_download schedW 1).1.active.length = schedW.active.length) ∧
    ((cancel_download schedW 3).2 = true ∧
     (cancel_download schedW 3).1.active = schedW.active ∧
     (cancel_download schedW 3).1.queued = schedW.queued.erase 3) := by
  have h1 := c3_cancel_semantics schedW 1 (by decide) (by decide) (by decide)
  have h3 := c3_cancel_semantics schedW 3 (by decide) (by decide) (by decide)
  have ha := h1.1 (by decide)
  have hb := (ha.2.2.2.1) 3 [] (by decide)
  have hc := h3.2 (by decide) (by decide)
  exact ⟨⟨ha.1, ha.2.1, hb.1, hb.2.1, hb.2.2⟩, hc.1, hc.2.1, hc.2.2.1⟩

theorem pyStem_length_add_pySuffix_length_str (name : String) :
    (pyStem name).length + (pySuffix name).length = name.length := by
  rw [String.length, String.length, String.length]
  exact pyStem_length_add_pySuffix_length name

/-- C2 (amended part): the final library move of `process_media` never
overwrites — when the destination `target_dir / name` already exists the
file is placed at the distinct timestamp-suffixed path and the
pre-existing destination entry is unchanged. -/
theorem c2_final_move_suffixes (fs : FS) (curPath targetDir : String) (now : Nat)
    (hEx : FS.pathExists fs (targetDir ++ "/" ++ pathName curPath) = true)
    (hNe : curPath ≠ targetDir ++ "/" ++ pathName curPath) :
    (finalMove fs curPath targetDir now).dest =
      targetDir ++ "/" ++ pyStem (pathName curPath) ++ "_" ++ toString now ++
        pySuffix (pathName curPath) ∧
    (finalMove fs curPath targetDir now).dest ≠
      targetDir ++ "/" ++ pathName curPath ∧
    FS.lookup (finalMove fs curPath targetDir now).fs
        (targetDir ++ "/" ++ pathName curPath) =
      FS.lookup fs (targetDir ++ "/" ++ pathName curPath) := by
  have hdest : (finalMove fs curPath targetDir now).dest =
      targetDir ++ "/" ++ pyStem (pathName curPath) ++ "_" ++ toString now ++
        pySuffix (pathName curPath) := by
    simp only [finalMove, hEx, if_true]
  have hlens : (pyStem (pathName curPath)).length +
      (pySuffix (pathName curPath)).length = (pathName curPath).length :=
    pyStem_length_add_pySuffix_length_str (pathName curPath)
  have hne2 : targetDir ++ "/" ++ pyStem (pathName curPath) ++ "_" ++
      toString now ++ pySuffix (pathName curPath) ≠
      targetDir ++ "/" ++ pathName curPath := by
    intro he
    have hl := congrArg String.length he
    simp only [String.length_append] at hl
    have h1 : ("_" : String).length = 1 := rfl
    rw [h1] at hl
    omega
  have hfs : (finalMove fs curPath targetDir now).fs =
      FS.move fs curPath (targetDir ++ "/" ++ pyStem (pathName curPath) ++ "_" ++
        toString now ++ pySuffix (pathName curPath)) := by
    simp only [finalMove, hEx, if_true]
  refine ⟨hdest, ?_, ?_⟩
  · rw [hdest]; exact hne2
  · rw [hfs]
    exact FS.lookup_move_ne _ _ _ _ (fun h => hNe h.symm) (fun h => hne2 h.symm)

/-- Concrete filesystem scenario for the C2 witness and counterexample:
the downloaded file lives at `downloads/show.mkv` with content id 5, and
both the catch-all and the TV destination already hold a file named
`show.mkv` with content id 7. -/
def fsW : FS :=
  [("downloads/show.mkv", 5), ("other/show.mkv", 7), ("tv/Show/Season 01/show.mkv", 7)]

theorem c2_final_move_suffixes_witness :
    (finalMove fsW "downloads/show.mkv" "tv/Show/Season 01" 1700000000).dest =
      "tv/Show/Season 01" ++ "/" ++ pyStem (pathName "downloads/show.mkv") ++ "_" ++
        toString 1700000000 ++ pySuffix (pathName "downloads/show.mkv") ∧
    (finalMove fsW "downloads/show.mkv" "tv/Show/Season 01" 1700000000).dest ≠
      "tv/Show/Season 01" ++ "/" ++ pathName "downloads/show.mkv" ∧
    FS.lookup (finalMove fsW "downloads/show.mkv" "tv/Show/Season 01" 1700000000).fs
        ("tv/Show/Season 01" ++ "/" ++ pathName "downloads/show.mkv") =
      FS.lookup fsW ("tv/Show/Season 01" ++ "/" ++ pathName "downloads/show.mkv") :=
  c2_final_move_suffixes fsW "downloads/show.mkv" "tv/Show/Season 01" 1700000000
    (by decide) (by decide)

/-- Directory configuration used in concrete pipeline runs. -/
def dirsW : Dirs :=
  { moviesDir := "movies", tvDir := "tv", animeDir := "anime", otherDir := "other" }

/-- C2 (counterexample): the low-confidence fallback move of
`process_media` performs no existence check: with score 1/2 (< 0.6) and
a file already present at `other/show.mkv` (content id 7), the fallback
places the download at exactly that path and the pre-existing file is
replaced by the downloaded one (content id 5) — i.e. this placement
overwrites an existing file, contrary to the claim that no placement
ever overwrites. -/
theorem c2_fallback_overwrites :
    (process_media (mkRat 3 5) (mkRat 4 5) dirsW "downloads/show.mkv" "show.mkv"
        "show" (mkRat 1 2) MediaResult.empty none 1700000000 false fsW).finalPath =
      some "other/show.mkv" ∧
    FS.lookup fsW "other/show.mkv" = some 7 ∧
    FS.lookup (process_media (mkRat 3 5) (mkRat 4 5) dirsW "downloads/show.mkv"
        "show.mkv" "show" (mkRat 1 2) MediaResult.empty none 1700000000 false
        fsW).fs "other/show.mkv" = some 5 := by
  refine ⟨?_, ?_, ?_⟩ <;> decide

theorem takeWhile_append_of_all {p : Char → Bool} (l1 l2 : List Char)
    (h : ∀ a ∈ l1, p a = true) :
    (l1 ++ l2).takeWhile p = l1 ++ l2.takeWhile p := by
  induction l1 with
  | nil => simp
  | cons a t ih =>
    have ha : p a = true := h a (List.mem_cons_self a t)
    have ht : ∀ x ∈ t, p x = true := fun x hx => h x (List.mem_cons_of_mem a hx)
    simp [List.takeWhile_cons, ha, ih ht]

theorem takeWhile_dropWhile_self (p : Char → Bool) (l : List Char) :
    (l.dropWhile p).takeWhile p = [] := by
  induction l with
  | nil => rfl
  | cons a t ih =>
    by_cases ha : p a = true
    · simp [List.dropWhile_cons, ha, ih]
    · simp [List.dropWhile_cons, ha, List.takeWhile_cons]

theorem mem_pathName_ne_slash (p : String) (c : Char)
    (hc : c ∈ (pathName p).data) : c ≠ '/' := by
  unfold pathName at hc
  rw [List.mem_reverse] at hc
  have := List.mem_takeWhile_imp hc
  exact of_decide_eq_true this

/-- Renaming preserves the name: `Path(p).with_name(n).name = n` for a
slash-free name `n`. -/
theorem pathName_withName (dlPath n : String) (h : ∀ c ∈ n.data, c ≠ '/') :
    pathName (pathWithName dlPath n) = n := by
  unfold pathName pathWithName
  rw [String.data_append, List.reverse_append]
  have hall : ∀ a ∈ n.data.reverse, (fun c => decide (c ≠ '/')) a = true := by
    intro a ha
    rw [List.mem_reverse] at ha
    exact decide_eq_true (h a ha)
  rw [takeWhile_append_of_all _ _ hall]
  have hds : (pathDirSlash dlPath).data.reverse =
      dlPath.data.reverse.dropWhile (fun c => decide (c ≠ '/')) := by
    unfold pathDirSlash
    simp [List.reverse_reverse]
  rw [hds, takeWhile_dropWhile_self]
  simp

/-- The new name built in the high-confidence rename (sanitized base
plus the extension of the path) contains no slash. -/
theorem mem_newName_ne_slash (base p : String) (c : Char)
    (hc : c ∈ (reSubInvalid base ++ pySuffix (pathName p)).data) : c ≠ '/' := by
  rw [String.data_append, List.mem_append] at hc
  rcases hc with hc | hc
  · unfold reSubInvalid at hc
    have hmf := List.mem_filter.mp hc
    have h2 := hmf.2
    intro he
    rw [he] at h2
    simp [invalidRenameChars] at h2
  · have hsub : c ∈ (pathName p).data := by
      unfold pySuffix at hc
      exact List.drop_subset _ _ hc
    exact mem_pathName_ne_slash p c hsub

/-- Branch equation: `process_media` below the low threshold. -/
theorem process_media_low_eq (low high : ℚ) (d : Dirs)
    (downloadPath selfFilename parsed : String) (score : ℚ) (r : MediaResult)
    (screenSize : Option String) (now : Nat) (fs : FS) (hlow : score < low) :
    process_media low high d downloadPath selfFilename parsed score r
        screenSize now false fs =
      { fs := FS.move fs downloadPath (d.otherDir ++ "/" ++ pathName downloadPath),
        renamed := false, movedName := pathName downloadPath,
        finalPath := some (d.otherDir ++ "/" ++ pathName downloadPath),
        fellBack := true,
        audit := [selfFilename ++ "," ++ parsed ++ "," ++ (r.title.getD "") ++ "," ++
                  fmtScore score],
        recorded := false } := by
  simp only [process_media, Bool.false_eq_true, if_false, if_pos hlow]

/-- Branch equation: `process_media` in the medium-confidence band. -/
theorem process_media_mid_eq (low high : ℚ) (d : Dirs)
    (downloadPath selfFilename parsed : String) (score : ℚ) (r : MediaResult)
    (screenSize : Option String) (now : Nat) (fs : FS)
    (hlow : ¬ score < low) (hhigh : ¬ high ≤ score) :
    process_media low high d downloadPath selfFilename parsed score r
        screenSize now false fs =
      { fs := (finalMove fs downloadPath (targetDirFor d r) now).fs,
        renamed := false, movedName := pathName downloadPath,
        finalPath := some (finalMove fs downloadPath (targetDirFor d r) now).dest,
        fellBack := false, audit := [], recorded := true } := by
  simp only [process_media, Bool.false_eq_true, if_false, if_neg hlow, if_neg hhigh]

/-- Branch equation: `process_media` at or above the high threshold. -/
theorem process_media_high_eq (low high : ℚ) (d : Dirs)
    (downloadPath selfFilename parsed : String) (score : ℚ) (r : MediaResult)
    (screenSize : Option String) (now : Nat) (fs : FS)
    (hlow : ¬ score < low) (hhigh : high ≤ score) :
    process_media low high d downloadPath selfFilename parsed score r
        screenSize now false fs =
      (let newName := reSubInvalid (withResTag (renameBase r selfFilename)
          screenSize) ++ pySuffix (pathName downloadPath)
       let newPath := pathWithName downloadPath newName
       { fs := (finalMove (FS.move fs downloadPath newPath) newPath
                  (targetDirFor d r) now).fs,
         renamed := true, movedName := pathName newPath,
         finalPath := some (finalMove (FS.move fs downloadPath newPath) newPath
                  (targetDirFor d r) now).dest,
         fellBack := false, audit := [], recorded := true }) := by
  simp only [process_media, Bool.false_eq_true, if_false, if_neg hlow, if_pos hhigh]

/-- C4: the file is renamed iff the score is at or above the high
threshold; a medium-confidence run moves the file under its original
name; a high-confidence run moves it under the sanitized library-style
base name (with the original extension), where the base name is
`Title - Episode N` for an anime episode, `Title - SNNENN` for TV,
`Title (Year)` for a movie, each with the detected resolution tag
appended when present. -/
theorem c4_rename_iff_high (low high : ℚ) (hlh : low ≤ high) (d : Dirs)
    (downloadPath selfFilename parsed : String) (score : ℚ) (r : MediaResult)
    (screenSize : Option String) (now : Nat) (fs : FS) :
    ((process_media low high d downloadPath selfFilename parsed score r
        screenSize now false fs).renamed = true ↔ high ≤ score) ∧
    (low ≤ score → score < high →
      (process_media low high d downloadPath selfFilename parsed score r
        screenSize now false fs).movedName = pathName downloadPath) ∧
    (high ≤ score →
      (process_media low high d downloadPath selfFilename parsed score r
        screenSize now false fs).movedName =
        reSubInvalid (withResTag (renameBase r selfFilename) screenSize) ++
          pySuffix (pathName downloadPath)) ∧
    (∀ t e, r.isAnime = some true → r.rtype = some "tv" → r.title = some t →
      r.episode = some e →
      renameBase r selfFilename = t ++ " - Episode " ++ toString e) ∧
    (∀ t sn e, r.isAnime ≠ some true → r.rtype = some "tv" → r.title = some t →
      r.season = some sn → r.episode = some e →
      renameBase r selfFilename = t ++ " - S" ++ pad2 sn ++ "E" ++ pad2 e) ∧
    (∀ t y, r.rtype = some "movie" → r.title = some t → r.year = some y →
      renameBase r selfFilename = t ++ " (" ++ y ++ ")") := by
  have hhigh_not_low : high ≤ score → ¬ score < low := by
    intro hh hl
    exact absurd (lt_of_lt_of_le hl (le_trans hlh hh)) (lt_irrefl score)
  refine ⟨?_, ?_, ?_, ?_, ?_, ?_⟩
  · constructor
    · intro hr
      by_cases hlow : score < low
      · rw [process_media_low_eq low high d downloadPath selfFilename parsed
            score r screenSize now fs hlow] at hr
        exact absurd hr (by simp)
      · by_cases hhigh : high ≤ score
        · exact hhigh
        · rw [process_media_mid_eq low high d downloadPath selfFilename parsed
              score r screenSize now fs hlow hhigh] at hr
          exact absurd hr (by simp)
    · intro hhigh
      rw [process_media_high_eq low high d downloadPath selfFilename parsed
            score r screenSize now fs (hhigh_not_low hhigh) hhigh]
  · intro hls hsh
    have hlow : ¬ score < low := not_lt_of_le hls
    have hhigh : ¬ high ≤ score := not_le_of_lt hsh
    rw [process_media_mid_eq low high d downloadPath selfFilename parsed
          score r screenSize now fs hlow hhigh]
  · intro hhigh
    rw [process_media_high_eq low high d downloadPath selfFilename parsed
          score r screenSize now fs (hhigh_not_low hhigh) hhigh]
    exact pathName_withName downloadPath _
      (fun c hc => mem_newName_ne_slash _ downloadPath c hc)
  · intro t e hA hT hTi hE
    simp [renameBase, hA, hT, hTi, hE]
  · intro t sn e hA hT hTi hS hE
    simp [renameBase, hA, hT, hTi, hS, hE]
  · intro t y hT hTi hY
    have hcond : ¬ (r.isAnime = some true ∧ r.rtype = some "tv") := by
      intro hco
      rw [hco.2] at hT
      exact absurd (Option.some.inj hT) (by decide)
    have htv : ¬ r.rtype = some "tv" := by
      rw [hT]
      intro hco
      exact absurd (Option.some.inj hco) (by decide)
    simp [renameBase, hcond, hT, htv, hTi, hY, pyOptStr]

/-- Concrete high-confidence TV run for the C4 witness: score 9/10,
thresholds 3/5 and 4/5, result `Breaking Bad` S01E05, resolution tag
1080p present. -/
def tvResultW : MediaResult :=
  { rtype := some "tv", title := some "Breaking Bad", year := none,
    season := some 1, episode := some 5, isAnime := some false,
    tmdbId := some 1396, folderStructure := none }

theorem c4_rename_iff_high_witness :
    ((process_media (mkRat 3 5) (mkRat 4 5) dirsW "downloads/bb.mkv" "bb.mkv"
        "Breaking Bad" (mkRat 9 10) tvResultW (some "1080p") 1700000000 false
        []).renamed = true ↔ (mkRat 4 5 : ℚ) ≤ mkRat 9 10) ∧
    (renameBase tvResultW "bb.mkv" =
      "Breaking Bad" ++ " - S" ++ pad2 1 ++ "E" ++ pad2 5) := by
  have h := c4_rename_iff_high (mkRat 3 5) (mkRat 4 5) (by decide) dirsW
    "downloads/bb.mkv" "bb.mkv" "Breaking Bad" (mkRat 9 10) tvResultW
    (some "1080p") 1700000000 []
  exact ⟨h.1, h.2.2.2.2.1 "Breaking Bad" 1 5 (by decide) (by decide) (by decide)
    (by decide) (by decide)⟩

/-- C6: below the low threshold the file is moved unmodified (original
name, no rename) into the catch-all directory, exactly one
comma-separated audit line (original name, parsed title, provider title,
score) is appended, and no automatic placement record is created. -/
theorem c6_low_confidence (low high : ℚ) (d : Dirs)
    (downloadPath selfFilename parsed : String) (score : ℚ) (r : MediaResult)
    (screenSize : Option String) (now : Nat) (fs : FS) (hlow : score < low) :
    (process_media low high d downloadPath selfFilename parsed score r
        screenSize now false fs).fellBack = true ∧
    (process_media low high d downloadPath selfFilename parsed score r
        screenSize now false fs).renamed = false ∧
    (process_media low high d downloadPath selfFilename parsed score r
        screenSize now false fs).movedName = pathName downloadPath ∧
    (process_media low high d downloadPath selfFilename parsed score r
        screenSize now false fs).finalPath =
      some (d.otherDir ++ "/" ++ pathName downloadPath) ∧
    (process_media low high d downloadPath selfFilename parsed score r
        screenSize now false fs).fs =
      FS.move fs downloadPath (d.otherDir ++ "/" ++ pathName downloadPath) ∧
    (process_media low high d downloadPath selfFilename parsed score r
        screenSize now false fs).audit =
      [selfFilename ++ "," ++ parsed ++ "," ++ (r.title.getD "") ++ "," ++
       fmtScore score] ∧
    (process_media low high d downloadPath selfFilename parsed score r
        screenSize now false fs).recorded = false := by
  rw [process_media_low_eq low high d downloadPath selfFilename parsed score r
        screenSize now fs hlow]
  exact ⟨rfl, rfl, rfl, rfl, rfl, rfl, rfl⟩

theorem c6_low_confidence_witness :
    (process_media (mkRat 3 5) (mkRat 4 5) dirsW "downloads/film.mkv" "film.mkv"
        "film" (mkRat 1 2) MediaResult.empty none 1700000000 false
        [("downloads/film.mkv", 5)]).fellBack = true ∧
    (process_media (mkRat 3 5) (mkRat 4 5) dirsW "downloads/film.mkv" "film.mkv"
        "film" (mkRat 1 2) MediaResult.empty none 1700000000 false
        [("downloads/film.mkv", 5)]).movedName = pathName "downloads/film.mkv" ∧
    (process_media (mkRat 3 5) (mkRat 4 5) dirsW "downloads/film.mkv" "film.mkv"
        "film" (mkRat 1 2) MediaResult.empty none 1700000000 false
        [("downloads/film.mkv", 5)]).audit =
      ["film.mkv" ++ "," ++ "film" ++ "," ++ ((MediaResult.empty).title.getD "") ++
       "," ++ fmtScore (mkRat 1 2)] ∧
    (process_media (mkRat 3 5) (mkRat 4 5) dirsW "downloads/film.mkv" "film.mkv"
        "film" (mkRat 1 2) MediaResult.empty none 1700000000 false
        [("downloads/film.mkv", 5)]).recorded = false := by
  have h := c6_low_confidence (mkRat 3 5) (mkRat 4 5) dirsW "downloads/film.mkv"
    "film.mkv" "film" (mkRat 1 2) MediaResult.empty none 1700000000
    [("downloads/film.mkv", 5)] (by decide)
  exact ⟨h.1, h.2.2.1, h.2.2.2.2.2.1, h.2.2.2.2.2.2⟩

/-- C7: `search_tmdb` raises a `ValueError` whenever GuessIt yields no
(or an empty) title, and returns the empty result — whose category
reads as `unknown` — whenever a title was extracted but the provider
query returns no match. -/
theorem c7_classify_errors :
    (∀ filename info p, (info.title = none ∨ info.title = some "") →
      search_tmdb filename info p =
        .error ("Could not extract title from " ++ filename)) ∧
    (∀ filename info p t, info.title = some t → t ≠ "" →
      (info.gtype = some "episode" → p.tvSearch t = []) →
      (info.gtype ≠ some "episode" → p.movieSearch t = []) →
      search_tmdb filename info p = .ok MediaResult.empty ∧
      MediaResult.empty.category = "unknown") := by
  constructor
  · intro filename info p h
    rcases h with h | h <;> simp [search_tmdb, h]
  · intro filename info p t hT ht h1 h2
    refine ⟨?_, rfl⟩
    simp only [search_tmdb, hT]
    rw [if_neg ht]
    by_cases hg : info.gtype = some "episode"
    · rw [if_pos hg, h1 hg]
    · rw [if_neg hg, h2 hg]

/-- Provider that never matches anything, for the C7 witness. -/
def provEmpty : Provider :=
  { tvSearch := fun _ => [], movieSearch := fun _ => [],
    keywords := fun _ _ => [] }

/-- GuessIt info with no extractable title. -/
def infoNoTitle : GuessitInfo :=
  { title := none, gtype := some "movie", season := none, episode := none,
    year := none }

/-- GuessIt info with a title but a movie-style query. -/
def infoMovieW : GuessitInfo :=
  { title := some "Obscure Film", gtype := some "movie", season := none,
    episode := none, year := some 1999 }

theorem c7_classify_errors_witness :
    search_tmdb "x.mkv" infoNoTitle provEmpty =
      .error ("Could not extract title from " ++ "x.mkv") ∧
    search_tmdb "Obscure.Film.1999.mkv" infoMovieW provEmpty =
      .ok MediaResult.empty ∧
    MediaResult.empty.category = "unknown" := by
  have h1 := c7_classify_errors.1 "x.mkv" infoNoTitle provEmpty (Or.inl rfl)
  have h2 := c7_classify_errors.2 "Obscure.Film.1999.mkv" infoMovieW provEmpty
    "Obscure Film" rfl (by decide) (fun hg => by exact absurd hg (by decide))
    (fun _ => rfl)
  exact ⟨h1, h2.1, h2.2⟩

/-- Provider whose keyword table tags show id 42 as anime, for C5. -/
def animeProv : Provider :=
  { tvSearch := fun _ => [{ name := "Naruto", id := 42 }],
    movieSearch := fun _ => [],
    keywords := fun id mt => if id = 42 ∧ mt = "tv" then ["Anime"] else [] }

def epInfoW : GuessitInfo :=
  { title := some "Naruto", gtype := some "episode", season := some 1,
    episode := some 3, year := none }

/-- C5 (counterexample): the provider keywords for the matched show
(id 42) do contain the anime keyword — `check_anime_tag` returns
`true` — yet the `ClassificationResult` returned by `search_tmdb` for
that very match carries `is_anime = False`: the classifier performs no
secondary keyword lookup (`is_anime` is hard-coded `False`). -/
theorem c5_anime_flag_not_from_lookup :
    check_anime_tag animeProv 42 "tv" = true ∧
    search_tmdb "Naruto.S01E03.mkv" epInfoW animeProv =
      .ok { rtype := some "tv", title := some "Naruto", year := none,
            season := some 1, episode := some 3, isAnime := some false,
            tmdbId := some 42, folderStructure := none } := by
  refine ⟨by decide, ?_⟩
  rfl

/-- C5 (amended): for every filename on which the provider returns a
match, the anime flag of the classification result is `False` — it is
never determined by the keyword lookup (the `check_anime_tag` helper
exists but `search_tmdb` does not call it). -/
theorem c5_anime_flag_always_false (filename : String) (info : GuessitInfo)
    (p : Provider) (res : MediaResult)
    (hok : search_tmdb filename info p = .ok res)
    (hne : res.isEmpty = false) :
    res.isAnime = some false := by
  unfold search_tmdb at hok
  cases hti : info.title with
  | none =>
    rw [hti] at hok
    exact absurd hok (by simp)
  | some t =>
    rw [hti] at hok
    dsimp only at hok
    by_cases ht : t = ""
    · rw [if_pos ht] at hok
      exact absurd hok (by simp)
    · rw [if_neg ht] at hok
      by_cases hg : info.gtype = some "episode"
      · rw [if_pos hg] at hok
        cases hs : p.tvSearch t with
        | nil =>
          rw [hs] at hok
          injection hok with hres
          rw [← hres] at hne
          exact absurd hne (by decide)
        | cons sh tl =>
          rw [hs] at hok
          injection hok with hres
          rw [← hres]
      · rw [if_neg hg] at hok
        cases hs : p.movieSearch t with
        | nil =>
          rw [hs] at hok
          injection hok with hres
          rw [← hres] at hne
          exact absurd hne (by decide)
        | cons m tl =>
          rw [hs] at hok
          injection hok with hres
          rw [← hres]

theorem c5_anime_flag_always_false_witness :
    ({ rtype := some "tv", title := some "Naruto", year := none,
       season := some 1, episode := some 3, isAnime := some false,
       tmdbId := some 42, folderStructure := none } : MediaResult).isAnime =
      some false :=
  c5_anime_flag_always_false "Naruto.S01E03.mkv" epInfoW animeProv _ rfl rfl

/-- C8 (counterexample): the rename-path sanitization
regex substitution maps the non-empty input `":"`
(entirely invalid characters) to the empty string — it can produce an
empty filename component, contrary to the claim. -/
theorem c8_empty_component :
    reSubInvalid ":" = "" ∧ (":" : String) ≠ "" := by
  exact ⟨by decide, by decide⟩

/-- C8 (amended): the rename-path sanitization does strip every invalid
character (no separator, colon, quote, asterisk, question mark, angle
bracket or pipe survives), but it has no non-empty guarantee; the
non-empty guarantee lives in the directory-component sanitizer
`sanitize_path_component`, which never returns an empty component. -/
theorem c8_sanitizers :
    (∀ s : String, ∀ c ∈ (reSubInvalid s).data, c ∉ invalidRenameChars) ∧
    (∀ s : String, sanitize_path_component s ≠ "") := by
  constructor
  · intro s c hc
    unfold reSubInvalid at hc
    have h2 := (List.mem_filter.mp hc).2
    simpa using h2
  · intro s
    simp only [sanitize_path_component]
    split
    · decide
    · next h =>
      intro he
      apply h
      have hd := congrArg String.data he
      simpa using hd

theorem c8_sanitizers_witness :
    ('a' ∉ invalidRenameChars) ∧ sanitize_path_component "." ≠ "" :=
  ⟨c8_sanitizers.1 "a:b" 'a' (by decide), c8_sanitizers.2 "."⟩

/-- C9: a download whose wall-clock duration exceeds the maximum always
ends in the timed-out terminal state — the cancellation flag is set, the
incomplete file is deleted, a failed-download metric (and no success
metric) is recorded, `start_download` returns `False`, and there is no
retry: the subsequent `process_media` call sees the cancellation flag
and does nothing (no move, no audit line, no placement record). -/
theorem c9_timeout_terminal (maxDuration elapsed : ℚ) (fileWritten : Bool)
    (low high : ℚ) (d : Dirs) (downloadPath selfFilename parsed : String)
    (score : ℚ) (r : MediaResult) (screenSize : Option String) (now : Nat)
    (fs : FS) (hto : maxDuration < elapsed) :
    runTask maxDuration (.completes elapsed) fileWritten low high d
        downloadPath selfFilename parsed score r screenSize now fs =
      { dl := { cancelled := true, fileOnDisk := false, failRecorded := true,
                successRecorded := false, returned := false },
        proc := { fs := fs, renamed := false, movedName := "",
                  finalPath := none, fellBack := false, audit := [],
                  recorded := false } } := by
  simp only [runTask, start_download, if_pos hto, process_media, if_pos rfl,
    if_true]

theorem c9_timeout_terminal_witness :
    runTask 7200 (.completes 7201) true (mkRat 3 5) (mkRat 4 5) dirsW
        "downloads/film.mkv" "film.mkv" "film" (mkRat 9 10) MediaResult.empty
        none 1700000000 [("downloads/film.mkv", 5)] =
      { dl := { cancelled := true, fileOnDisk := false, failRecorded := true,
                successRecorded := false, returned := false },
        proc := { fs := [("downloads/film.mkv", 5)], renamed := false,
                  movedName := "", finalPath := none, fellBack := false,
                  audit := [], recorded := false } } :=
  c9_timeout_terminal 7200 7201 true (mkRat 3 5) (mkRat 4 5) dirsW
    "downloads/film.mkv" "film.mkv" "film" (mkRat 9 10) MediaResult.empty
    none 1700000000 [("downloads/film.mkv", 5)] (by decide)

theorem sessLookup_setEntry (l : List (Nat × UserSession)) (uid : Nat)
    (s : UserSession) : sessLookup (setEntry l uid s) uid = some s := by
  induction l with
  | nil => simp [setEntry, sessLookup]
  | cons e rest ih =>
    by_cases he : e.1 = uid
    · simp [setEntry, he, sessLookup]
    · simp [setEntry, he, sessLookup, ih]

theorem sessLookup_clear (l : List (Nat × UserSession)) (uid : Nat) :
    sessLookup (l.filter (fun e => !(e.1 == uid))) uid = none := by
  induction l with
  | nil => rfl
  | cons e rest ih =>
    by_cases he : e.1 = uid
    · simp [List.filter_cons, he, ih]
    · simp [List.filter_cons, he, sessLookup, ih]

/-- C10: session-store TTL semantics.  (a) immediately after `create`
the session is present and expires at `now + ttl`; (b) `get` on a
session whose expiry has passed evicts it and returns absent; (c) a
successful `update` before expiry stores the session back with expiry
reset to the current time plus the TTL, never shrinking the deadline of
a session whose remaining lifetime is at most one TTL. -/
theorem c10_session_ttl (m : SessionManager) (now uid : Nat) (st : String)
    (data kvs : List (String × String)) :
    (((m.create now uid st data).1.get now uid).2 =
        some (m.create now uid st data).2 ∧
      (m.create now uid st data).2.expiresAt = now + m.ttl) ∧
    (∀ s t, m.lookup uid = some s → s.expiresAt < t →
      (m.get t uid).2 = none ∧ (m.get t uid).1.lookup uid = none) ∧
    (∀ s t, m.lookup uid = some s → ¬ s.expiresAt < t →
      ∃ s2, (m.update t uid kvs).2 = some s2 ∧
        s2.expiresAt = t + m.ttl ∧
        (m.update t uid kvs).1.lookup uid = some s2 ∧
        (s.expiresAt ≤ t + m.ttl → s.expiresAt ≤ s2.expiresAt)) := by
  refine ⟨⟨?_, rfl⟩, ?_, ?_⟩
  · have hlk : (m.create now uid st data).1.lookup uid =
        some (m.create now uid st data).2 := by
      simp only [SessionManager.create, SessionManager.lookup]
      exact sessLookup_setEntry m.sessions uid _
    simp only [SessionManager.get, hlk]
    have hexp : UserSession.isExpired now (m.create now uid st data).2 = false := by
      simp [UserSession.isExpired, SessionManager.create]
    rw [hexp]
    simp
  · intro s t hlk hexp
    have hexpired : UserSession.isExpired t s = true := by
      simp [UserSession.isExpired, hexp]
    simp only [SessionManager.get, hlk, hexpired]
    constructor
    · simp
    · simp only [if_true, SessionManager.clear, SessionManager.lookup]
      exact sessLookup_clear m.sessions uid
  · intro s t hlk hexp
    have hnexpired : UserSession.isExpired t s = false := by
      simp [UserSession.isExpired, hexp]
    have hget : m.get t uid = (m, some s) := by
      simp only [SessionManager.get, hlk, hnexpired]
      simp
    refine ⟨{ s with data := updateData s.data kvs, expiresAt := t + m.ttl },
      ?_, rfl, ?_, ?_⟩
    · simp only [SessionManager.update, hget]
    · simp only [SessionManager.update, hget, SessionManager.lookup]
      exact sessLookup_setEntry m.sessions uid _
    · intro hle
      exact hle

/-- Concrete session for the C10 witness: user 7, created at time 100
with TTL 30 (expiry 130). -/
def sessW : UserSession :=
  { userId := 7, state := "organize", data := [], createdAt := 100,
    expiresAt := 130 }

def mgrW : SessionManager := { sessions := [(7, sessW)], ttl := 30 }

theorem c10_session_ttl_witness :
    (((mgrW.create 100 7 "organize" []).1.get 100 7).2 =
        some (mgrW.create 100 7 "organize" []).2 ∧
      (mgrW.create 100 7 "organize" []).2.expiresAt = 100 + mgrW.ttl) ∧
    ((mgrW.get 131 7).2 = none ∧ (mgrW.get 131 7).1.lookup 7 = none) ∧
    (∃ s2, (mgrW.update 120 7 [("step", "title")]).2 = some s2 ∧
      s2.expiresAt = 120 + mgrW.ttl ∧
      (mgrW.update 120 7 [("step", "title")]).1.lookup 7 = some s2 ∧
      (sessW.expiresAt ≤ 120 + mgrW.ttl → sessW.expiresAt ≤ s2.expiresAt)) := by
  have h := c10_session_ttl mgrW 100 7 "organize" [] [("step", "title")]
  refine ⟨h.1, h.2.1 sessW 131 (by decide) (by decide), ?_⟩
  exact h.2.2 sessW 120 (by decide) (by decide)

end JellyfinDL
